import Mathlib

/-!
Shallow embedding of the event-driven transmission controller of
`src/src/main.cpp` (Low-Power-PIO application).  The three handlers
`app_event_handler`, `ble_data_handler` and `lora_data_handler` are modelled
as pure functions from an application state (the program's globals) to a new
state together with a trace of externally visible calls (log lines, pin
writes, delays, radio sends, the restart call, bytes forwarded to the AT
command interpreter).  Each handler also has an interference variant
(`...I p`) that ORs a producer-supplied bit mask `p` into the event-flag word
immediately after each clear of an event bit, modelling an interrupt-context
producer re-setting bits while the handler runs; the plain handler is the
interference variant at `p = 0`.
-/

/-- Event flag bit for the periodic status/timer event.  Modelled from the
spec: the event-flag bit constants live in the WisBlock-API header, which is
not under `src/`; each event kind owns one distinct bit of the 16-bit flag
word `g_task_event_type`, and each `N_x` constant is the 16-bit complement of
`x`, used to clear the bit with `&=`. -/
def STATUS : Nat := 0x0001

/-- 16-bit complement of `STATUS`. -/
def N_STATUS : Nat := 0xFFFE

/-- Event flag bit for BLE UART data arrival. -/
def BLE_DATA : Nat := 0x0004

/-- 16-bit complement of `BLE_DATA`. -/
def N_BLE_DATA : Nat := 0xFFFB

/-- Event flag bit for LoRa downlink data arrival. -/
def LORA_DATA : Nat := 0x0008

/-- 16-bit complement of `LORA_DATA`. -/
def N_LORA_DATA : Nat := 0xFFF7

/-- Event flag bit for LoRa TX finished. -/
def LORA_TX_FIN : Nat := 0x0010

/-- 16-bit complement of `LORA_TX_FIN`. -/
def N_LORA_TX_FIN : Nat := 0xFFEF

/-- Event flag bit for LoRaWAN join finished. -/
def LORA_JOIN_FIN : Nat := 0x0040

/-- 16-bit complement of `LORA_JOIN_FIN`. -/
def N_LORA_JOIN_FIN : Nat := 0xFFBF

/-- Cayenne LPP channel used for the battery reading (WisBlock-API header). -/
def LPP_CHANNEL_BATT : Nat := 1

/-- Cayenne LPP type tag for an analog voltage record. -/
def LPP_VOLTAGE : Nat := 116

/-- WisBlock IO2 pin (power-indicator pin toggled around the send cycle). -/
def WB_IO2 : Nat := 34

/-- The `lmh_confirm` enum of the LoRaMAC handler: confirmed vs unconfirmed
uplinks (`g_lorawan_settings.confirmed_msg_enabled`). -/
inductive LmhConfirm where
  | LMH_UNCONFIRMED_MSG
  | LMH_CONFIRMED_MSG
deriving DecidableEq, Repr

/-- The `lmh_error_status` values `send_lora_packet` can return, as matched by
the `switch` in `app_event_handler`. -/
inductive LmhErrorStatus where
  | LMH_SUCCESS
  | LMH_BUSY
  | LMH_ERROR
deriving DecidableEq, Repr

/-- One type-tagged record of the Cayenne LPP payload buffer: channel id,
LPP type tag, and the value handed to the encoder.  The encoder's two-byte
fixed-point wire encoding of the value is abstracted: the record keeps the
exact rational value passed to `addVoltage` (the claims about the encoder are
stated up to encoder rounding). -/
structure LppRecord where
  channel : Nat
  tag : Nat
  value : ℚ
deriving DecidableEq, Repr

/-- Byte cost of one record in the LPP buffer: one channel byte, one type
byte, two data bytes for `LPP_VOLTAGE`. -/
def recordBytes (_r : LppRecord) : Nat := 4

/-- Modelled from the spec: the `WisCayenne` payload encoder of the
WisBlock-API library (not under `src/`).  Per §4.2 of the spec, `reset`
empties the buffer and `addVoltage` appends one typed record if the remaining
byte capacity suffices.  The program constructs it as `WisCayenne payload(255)`,
so `maxsize = 255`. -/
structure WisCayenne where
  maxsize : Nat
  buffer : List LppRecord
deriving DecidableEq, Repr

/-- Current encoded size in bytes of the payload buffer. -/
def WisCayenne.getSize (p : WisCayenne) : Nat :=
  (p.buffer.map recordBytes).sum

/-- `payload.reset()`: empty the buffer. -/
def WisCayenne.reset (p : WisCayenne) : WisCayenne :=
  { p with buffer := [] }

/-- `payload.addVoltage(channel, value)`: append one voltage record when it
fits in the remaining capacity. -/
def WisCayenne.addVoltage (p : WisCayenne) (channel : Nat) (value : ℚ) : WisCayenne :=
  if p.getSize + 4 ≤ p.maxsize then
    { p with buffer := p.buffer ++ [⟨channel, LPP_VOLTAGE, value⟩] }
  else
    p

/-- The LoRaWAN settings fields of `g_lorawan_settings` that `main.cpp`
reads. -/
structure LorawanSettings where
  lorawan_enable : Bool
  confirmed_msg_enabled : LmhConfirm
deriving DecidableEq, Repr

/-- The mutable globals of `main.cpp` (and of the WisBlock-API it reads):
the event-flag word, the send-failure counter (a `uint8_t`, hence kept below
256), the configuration and result flags, the payload buffer, and the bytes
currently available on the BLE UART. -/
structure AppState where
  g_task_event_type : Nat
  send_fail : Nat
  g_lorawan_settings : LorawanSettings
  g_lpwan_has_joined : Bool
  g_join_result : Bool
  g_rx_fin_result : Bool
  g_enable_ble : Bool
  payload : WisCayenne
  ble_rx : List Nat
deriving DecidableEq, Repr

/-- Externally visible calls a handler makes, in order. -/
inductive Call where
  | log (tag msg : String)
  | digitalWrite (pin : Nat) (value : Bool)
  | delayMs (ms : Nat)
  | sendLoraPacket (buf : List LppRecord) (size fPort : Nat)
  | sendP2PPacket (buf : List LppRecord) (size : Nat)
  | apiReset
  | atSerialInput (b : Nat)
deriving DecidableEq, Repr

/-- Body of the STATUS branch of `app_event_handler`, entered after the
STATUS bit has been cleared: toggle IO2, reset the payload, sum 10 calls of
`read_batt` (the `i`-th call returns `read_batt i` millivolts; the C float
accumulation is modelled with exact rationals), average, scale to volts,
encode, then select the transmission path.  `send_lora_result` is the status
the external `send_lora_packet` returns when it is called. -/
def statusBody (read_batt : Nat → ℚ) (send_lora_result : LmhErrorStatus)
    (s : AppState) : AppState × List Call :=
  let head : List Call := [.log "APP" "Timer wakeup", .digitalWrite WB_IO2 true]
  let p1 := s.payload.reset
  let batt_level_f : ℚ := (List.range 10).foldl (fun acc i => acc + read_batt i) 0
  let batt_level_f := batt_level_f / 10
  let p2 := p1.addVoltage LPP_CHANNEL_BATT (batt_level_f / 1000)
  let s1 := { s with payload := p2 }
  if s1.g_lorawan_settings.lorawan_enable then
    if s1.g_lpwan_has_joined then
      let resultLog :=
        match send_lora_result with
        | .LMH_SUCCESS => Call.log "APP" "Packet enqueued"
        | .LMH_BUSY => Call.log "APP" "LoRa transceiver is busy"
        | .LMH_ERROR => Call.log "APP" "Packet error, too big to send with current DR"
      (s1, head ++ [.sendLoraPacket p2.buffer p2.getSize 2, resultLog,
                    .digitalWrite WB_IO2 false])
    else
      (s1, head ++ [.log "APP" "Network not joined, skip sending",
                    .digitalWrite WB_IO2 false])
  else
    (s1, head ++ [.sendP2PPacket p2.buffer p2.getSize, .digitalWrite WB_IO2 false])

/-- `app_event_handler` with producer interference: when the STATUS bit is
set it is cleared and the producer mask `p` is ORed in (a producer setting
bits right after the clear), then the status body runs. -/
def app_event_handlerI (read_batt : Nat → ℚ) (send_lora_result : LmhErrorStatus)
    (p : Nat) (s : AppState) : AppState × List Call :=
  if s.g_task_event_type &&& STATUS == STATUS then
    statusBody read_batt send_lora_result
      { s with g_task_event_type := (s.g_task_event_type &&& N_STATUS) ||| p }
  else
    (s, [])

/-- `app_event_handler` of `main.cpp`: the interference variant with no
producer activity. -/
def app_event_handler (read_batt : Nat → ℚ) (send_lora_result : LmhErrorStatus)
    (s : AppState) : AppState × List Call :=
  app_event_handlerI read_batt send_lora_result 0 s

/-- The BLE drain loop: forward each available byte (cast to `uint8_t`) to
`at_serial_input`, pacing with `delay(5)` after each byte. -/
def bleDrain : List Nat → List Call
  | [] => []
  | b :: rest => .atSerialInput (b % 256) :: .delayMs 5 :: bleDrain rest

/-- Body of the BLE_DATA branch of `ble_data_handler`, entered after the
BLE_DATA bit has been cleared: drain all available UART bytes, then forward
one terminating newline byte. -/
def bleBody (s : AppState) : AppState × List Call :=
  ({ s with ble_rx := [] }, bleDrain s.ble_rx ++ [.atSerialInput 10])

/-- `ble_data_handler` with producer interference after the clear of
BLE_DATA.  The whole body is guarded by `g_enable_ble`; the "RECEIVED BLE"
log precedes the clear, as in the source. -/
def ble_data_handlerI (p : Nat) (s : AppState) : AppState × List Call :=
  if s.g_enable_ble then
    if s.g_task_event_type &&& BLE_DATA == BLE_DATA then
      let step := bleBody
        { s with g_task_event_type := (s.g_task_event_type &&& N_BLE_DATA) ||| p }
      (step.1, .log "AT" "RECEIVED BLE" :: step.2)
    else
      (s, [])
  else
    (s, [])

/-- `ble_data_handler` of `main.cpp`. -/
def ble_data_handler (s : AppState) : AppState × List Call :=
  ble_data_handlerI 0 s

/-- Body of the LORA_JOIN_FIN branch: log the outcome; on success the session
keys and device address are read from the stack and logged (the embedding
abstracts the formatted key bytes into fixed log entries); on failure nothing
else happens (the re-join is commented out in the source). -/
def joinBody (s : AppState) : AppState × List Call :=
  if s.g_join_result then
    (s, [.log "APP" "Successfully joined network", .log "APP" "NwSkey",
         .log "APP" "AppSkey", .log "APP" "DevAddr"])
  else
    (s, [.log "APP" "Join network failed"])

/-- Body of the LORA_DATA branch: log reception metadata and a hex dump of
the received bytes (abstracted into fixed log entries; the branch mutates no
application state). -/
def dataBody (s : AppState) : AppState × List Call :=
  (s, [.log "APP" "Received package over LoRa", .log "APP" "RSSI SNR",
       .log "APP" "rx data hex dump"])

/-- Body of the LORA_TX_FIN branch: when LoRaWAN is enabled, log the cycle
outcome (message depending on the confirmed-mode setting and on
`g_rx_fin_result`); then, independently of the confirmed-mode setting, when
`g_rx_fin_result` is false increment `send_fail` (a `uint8_t`) and, when it
reaches exactly 10, delay 100 ms and call `api_reset`.  When LoRaWAN is
disabled, only log the P2P TX end. -/
def txBody (s : AppState) : AppState × List Call :=
  if s.g_lorawan_settings.lorawan_enable then
    let cycleLog :=
      if s.g_lorawan_settings.confirmed_msg_enabled = .LMH_UNCONFIRMED_MSG then
        Call.log "APP" "LPWAN TX cycle finished"
      else if s.g_rx_fin_result then
        Call.log "APP" "LPWAN TX cycle finished ACK"
      else
        Call.log "APP" "LPWAN TX cycle failed NAK"
    if s.g_rx_fin_result then
      (s, [cycleLog])
    else
      let s1 := { s with send_fail := (s.send_fail + 1) % 256 }
      if s1.send_fail == 10 then
        (s1, [cycleLog, .delayMs 100, .apiReset])
      else
        (s1, [cycleLog])
  else
    (s, [.log "APP" "P2P TX finished"])

/-- The LORA_JOIN_FIN branch of `lora_data_handler`: test the bit, clear it
(ORing in the producer mask `p`), run the body. -/
def loraJoinStep (p : Nat) (s : AppState) : AppState × List Call :=
  if s.g_task_event_type &&& LORA_JOIN_FIN == LORA_JOIN_FIN then
    joinBody
      { s with g_task_event_type := (s.g_task_event_type &&& N_LORA_JOIN_FIN) ||| p }
  else
    (s, [])

/-- The LORA_DATA branch of `lora_data_handler`. -/
def loraDataStep (p : Nat) (s : AppState) : AppState × List Call :=
  if s.g_task_event_type &&& LORA_DATA == LORA_DATA then
    dataBody
      { s with g_task_event_type := (s.g_task_event_type &&& N_LORA_DATA) ||| p }
  else
    (s, [])

/-- The LORA_TX_FIN branch of `lora_data_handler`. -/
def loraTxStep (p : Nat) (s : AppState) : AppState × List Call :=
  if s.g_task_event_type &&& LORA_TX_FIN == LORA_TX_FIN then
    txBody
      { s with g_task_event_type := (s.g_task_event_type &&& N_LORA_TX_FIN) ||| p }
  else
    (s, [])

/-- `lora_data_handler` with producer interference: the three branches run in
source order (join finished, downlink data, TX finished); each tests its bit
on the current flag word, clears it, ORs the producer mask `p` in, and runs
its body. -/
def lora_data_handlerI (p : Nat) (s : AppState) : AppState × List Call :=
  let step1 := loraJoinStep p s
  let step2 := loraDataStep p step1.1
  let step3 := loraTxStep p step2.1
  (step3.1, step1.2 ++ step2.2 ++ step3.2)

/-- `lora_data_handler` of `main.cpp`. -/
def lora_data_handler (s : AppState) : AppState × List Call :=
  lora_data_handlerI 0 s

/-- One TX-finished event delivered to the controller: the radio stack
records the acknowledgment outcome in `g_rx_fin_result`, sets the
LORA_TX_FIN bit, and the dispatcher runs `lora_data_handler`. -/
def txEvent (ack : Bool) (s : AppState) : AppState × List Call :=
  lora_data_handler
    { s with g_rx_fin_result := ack,
             g_task_event_type := s.g_task_event_type ||| LORA_TX_FIN }

/-- Deliver a sequence of TX-finished events, collecting the per-event call
traces. -/
def runTx : List Bool → AppState → AppState × List (List Call)
  | [], s => (s, [])
  | a :: rest, s =>
    let step := txEvent a s
    let tail := runTx rest step.1
    (tail.1, step.2 :: tail.2)

/-- Is this call the restart call? -/
def isReset : Call → Bool
  | .apiReset => true
  | _ => false

/-- Is this call a log line? -/
def isLog : Call → Bool
  | .log _ _ => true
  | _ => false

/-- Is this call a LoRaWAN uplink enqueue? -/
def isLoraSend : Call → Bool
  | .sendLoraPacket _ _ _ => true
  | _ => false

/-- Is this call a peer-to-peer send? -/
def isP2PSend : Call → Bool
  | .sendP2PPacket _ _ => true
  | _ => false

/-- Number of `api_reset` calls in a trace. -/
def countReset (cs : List Call) : Nat := (cs.filter isReset).length

/-- Number of `send_lora_packet` calls in a trace. -/
def countLoraSend (cs : List Call) : Nat := (cs.filter isLoraSend).length

/-- Number of `send_p2p_packet` calls in a trace. -/
def countP2PSend (cs : List Call) : Nat := (cs.filter isP2PSend).length

/-- The bytes forwarded to `at_serial_input`, in order. -/
def forwardedBytes (cs : List Call) : List Nat :=
  cs.filterMap fun c =>
    match c with
    | .atSerialInput b => some b
    | _ => none

/-- The payload buffers handed to a transmission call (`send_lora_packet` or
`send_p2p_packet`), in order. -/
def sentBuffers (cs : List Call) : List (List LppRecord) :=
  cs.filterMap fun c =>
    match c with
    | .sendLoraPacket buf _ _ => some buf
    | .sendP2PPacket buf _ => some buf
    | _ => none

/-- A concrete reference state (LoRaWAN enabled, confirmed uplinks, joined,
BLE enabled, clean flag word and counters) used by the concrete instances
below. -/
def stBase : AppState :=
  { g_task_event_type := 0, send_fail := 0,
    g_lorawan_settings :=
      { lorawan_enable := true, confirmed_msg_enabled := .LMH_CONFIRMED_MSG },
    g_lpwan_has_joined := true, g_join_result := true, g_rx_fin_result := true,
    g_enable_ble := true, payload := { maxsize := 255, buffer := [] },
    ble_rx := [] }

/-- A TX-finished event pending with LoRaWAN enabled, unconfirmed uplinks
configured, a negative acknowledgment result, and nine failures already
counted. -/
def stC1cex : AppState :=
  { stBase with
    g_task_event_type := LORA_TX_FIN,
    g_lorawan_settings :=
      { lorawan_enable := true, confirmed_msg_enabled := .LMH_UNCONFIRMED_MSG },
    g_rx_fin_result := false,
    send_fail := 9 }

/-- A BLE-data event pending while the BLE link is disabled. -/
def stC3cex : AppState :=
  { stBase with g_task_event_type := BLE_DATA, g_enable_ble := false }

/-- A status event pending with wide-area mode disabled. -/
def stC4w : AppState :=
  { stBase with
    g_task_event_type := STATUS,
    g_lorawan_settings :=
      { lorawan_enable := false, confirmed_msg_enabled := .LMH_CONFIRMED_MSG } }

/-- A status event pending with a stale record left in the payload buffer. -/
def stC7w : AppState :=
  { stBase with
    g_task_event_type := STATUS,
    payload := { maxsize := 255, buffer := [⟨7, 99, 5⟩] } }

/-- Bit arithmetic: clearing through a mask `N` that misses every bit of `b`,
then ORing in `p`, leaves exactly the `p`-bits of `b`. -/
theorem and_clear_or_and (f N p b : Nat) (h : N &&& b = 0) :
    ((f &&& N) ||| p) &&& b = p &&& b := by
  apply Nat.eq_of_testBit_eq
  intro i
  have hi : (N.testBit i && b.testBit i) = false := by
    have h2 := congrArg (fun t => Nat.testBit t i) h
    simpa [Nat.testBit_and] using h2
  simp only [Nat.testBit_and, Nat.testBit_or]
  cases hN : N.testBit i <;> cases hb : b.testBit i <;> simp_all

/-- Bit arithmetic: clearing through a mask `N` that keeps every bit of `b`
preserves the property of agreeing with `p` on `b`. -/
theorem and_keep_or_and (x N p b : Nat) (hN : N &&& b = b)
    (hx : x &&& b = p &&& b) : ((x &&& N) ||| p) &&& b = p &&& b := by
  apply Nat.eq_of_testBit_eq
  intro i
  have hNi : (N.testBit i && b.testBit i) = b.testBit i := by
    have h2 := congrArg (fun t => Nat.testBit t i) hN
    simpa [Nat.testBit_and] using h2
  have hxi : (x.testBit i && b.testBit i) = (p.testBit i && b.testBit i) := by
    have h2 := congrArg (fun t => Nat.testBit t i) hx
    simpa [Nat.testBit_and] using h2
  simp only [Nat.testBit_and, Nat.testBit_or]
  cases hb : b.testBit i <;> cases hN2 : N.testBit i <;>
    cases hx2 : x.testBit i <;> cases hp : p.testBit i <;> simp_all

/-- Bit arithmetic: clearing through a mask `N` that keeps every bit of `b`
preserves a set `b`. -/
theorem and_keep_or_self (x N p b : Nat) (hN : N &&& b = b)
    (hx : x &&& b = b) : ((x &&& N) ||| p) &&& b = b := by
  apply Nat.eq_of_testBit_eq
  intro i
  have hNi : (N.testBit i && b.testBit i) = b.testBit i := by
    have h2 := congrArg (fun t => Nat.testBit t i) hN
    simpa [Nat.testBit_and] using h2
  have hxi : (x.testBit i && b.testBit i) = b.testBit i := by
    have h2 := congrArg (fun t => Nat.testBit t i) hx
    simpa [Nat.testBit_and] using h2
  simp only [Nat.testBit_and, Nat.testBit_or]
  cases hb : b.testBit i <;> cases hN2 : N.testBit i <;>
    cases hx2 : x.testBit i <;> simp_all

/-- The join body never touches the application state. -/
theorem joinBody_state (s : AppState) : (joinBody s).1 = s := by
  unfold joinBody
  split <;> rfl

/-- The downlink-data body never touches the application state. -/
theorem dataBody_state (s : AppState) : (dataBody s).1 = s := rfl

/-- The TX-finished body never touches the event-flag word. -/
theorem txBody_flags (s : AppState) :
    (txBody s).1.g_task_event_type = s.g_task_event_type := by
  simp only [txBody]
  repeat' split
  all_goals rfl

/-- The status body never touches the event-flag word. -/
theorem statusBody_flags (read_batt : Nat → ℚ) (res : LmhErrorStatus)
    (s : AppState) :
    (statusBody read_batt res s).1.g_task_event_type = s.g_task_event_type := by
  simp only [statusBody]
  repeat' split
  all_goals rfl

/-- The BLE drain body never touches the event-flag word. -/
theorem bleBody_flags (s : AppState) :
    (bleBody s).1.g_task_event_type = s.g_task_event_type := rfl

/-- A trace of pure log lines contains no restart call. -/
theorem countReset_eq_zero_of_logs (cs : List Call)
    (h : cs.all isLog = true) : countReset cs = 0 := by
  unfold countReset
  rw [List.length_eq_zero]
  rw [List.filter_eq_nil_iff]
  intro c hc
  have hcl := (List.all_eq_true.mp h) c hc
  cases c <;> simp_all [isLog, isReset]

/-- The join body emits only log lines. -/
theorem joinBody_logs (s : AppState) : (joinBody s).2.all isLog = true := by
  unfold joinBody
  split <;> rfl

/-- The downlink-data body emits only log lines. -/
theorem dataBody_logs (s : AppState) : (dataBody s).2.all isLog = true := rfl

/-- On an acknowledged result the TX-finished body changes nothing and only
logs. -/
theorem txBody_ack (s : AppState) (hack : s.g_rx_fin_result = true) :
    (txBody s).1 = s ∧ (txBody s).2.all isLog = true := by
  simp only [txBody, hack]
  repeat' split
  all_goals simp_all [isLog]

/-- The join step only rewrites the flag word and only logs. -/
theorem loraJoinStep_parts (p : Nat) (s : AppState) :
    (∃ f, (loraJoinStep p s).1 = { s with g_task_event_type := f })
    ∧ (loraJoinStep p s).2.all isLog = true := by
  unfold loraJoinStep
  split
  · exact ⟨⟨_, joinBody_state _⟩, joinBody_logs _⟩
  · exact ⟨⟨s.g_task_event_type, rfl⟩, rfl⟩

/-- The downlink-data step only rewrites the flag word and only logs. -/
theorem loraDataStep_parts (p : Nat) (s : AppState) :
    (∃ f, (loraDataStep p s).1 = { s with g_task_event_type := f })
    ∧ (loraDataStep p s).2.all isLog = true := by
  unfold loraDataStep
  split
  · exact ⟨⟨_, dataBody_state _⟩, dataBody_logs _⟩
  · exact ⟨⟨s.g_task_event_type, rfl⟩, rfl⟩

/-- On an acknowledged result the TX step only rewrites the flag word and
only logs. -/
theorem loraTxStep_ack (p : Nat) (s : AppState) (hack : s.g_rx_fin_result = true) :
    (∃ f, (loraTxStep p s).1 = { s with g_task_event_type := f })
    ∧ (loraTxStep p s).2.all isLog = true := by
  unfold loraTxStep
  split
  · have h := txBody_ack
      { s with g_task_event_type := (s.g_task_event_type &&& N_LORA_TX_FIN) ||| p }
      (by simpa using hack)
    exact ⟨⟨_, h.1⟩, h.2⟩
  · exact ⟨⟨s.g_task_event_type, rfl⟩, rfl⟩

/-- On an acknowledged result the whole LoRa handler leaves the failure
counter alone and emits only log lines, for any producer interference. -/
theorem lora_handler_ack_core (p : Nat) (s : AppState)
    (hack : s.g_rx_fin_result = true) :
    (lora_data_handlerI p s).1.send_fail = s.send_fail
    ∧ (lora_data_handlerI p s).2.all isLog = true := by
  obtain ⟨⟨f1, hf1⟩, hl1⟩ := loraJoinStep_parts p s
  obtain ⟨⟨f2, hf2⟩, hl2⟩ := loraDataStep_parts p (loraJoinStep p s).1
  obtain ⟨⟨f3, hf3⟩, hl3⟩ :=
    loraTxStep_ack p (loraDataStep p (loraJoinStep p s).1).1
      (by rw [hf2, hf1]; simpa using hack)
  constructor
  · show (loraTxStep p (loraDataStep p (loraJoinStep p s).1).1).1.send_fail
      = s.send_fail
    rw [hf3, hf2, hf1]
  · show ((loraJoinStep p s).2 ++ (loraDataStep p (loraJoinStep p s).1).2
      ++ (loraTxStep p (loraDataStep p (loraJoinStep p s).1).1).2).all isLog = true
    simp only [List.all_append, Bool.and_eq_true]
    exact ⟨⟨hl1, hl2⟩, hl3⟩

/-- C1 counterexample: with LoRaWAN enabled, confirmed-message mode OFF
(`LMH_UNCONFIRMED_MSG`) and the event carrying `g_rx_fin_result = false`,
the TX-finished handler is not "log only": starting from `send_fail = 9` it
increments the Failure Counter and even triggers the restart call, because
the `!g_rx_fin_result` bookkeeping in `lora_data_handler` sits outside the
confirmed-mode check. -/
theorem c1_counterexample :
    ¬((lora_data_handler stC1cex).1.send_fail = stC1cex.send_fail
      ∧ countReset (lora_data_handler stC1cex).2 = 0) := by decide

/-- C1 (amended): for every TX-finished event handled while LoRaWAN mode is
enabled and confirmed-message mode is off, WHEN the event carries a positive
acknowledgment result the handler only logs: the Failure Counter is left
unchanged and no restart is triggered.  (As stated, with an arbitrary
acknowledgment result, the claim is false: see the counterexample — the
failure bookkeeping depends only on `g_rx_fin_result`, not on the
confirmed-mode setting.) -/
theorem c1_unconfirmed_ack_log_only (s : AppState)
    (hen : s.g_lorawan_settings.lorawan_enable = true)
    (hcf : s.g_lorawan_settings.confirmed_msg_enabled = .LMH_UNCONFIRMED_MSG)
    (hack : s.g_rx_fin_result = true)
    (hbit : s.g_task_event_type &&& LORA_TX_FIN = LORA_TX_FIN) :
    (lora_data_handler s).1.send_fail = s.send_fail
    ∧ countReset (lora_data_handler s).2 = 0
    ∧ (lora_data_handler s).2.all isLog = true := by
  have h := lora_handler_ack_core 0 s hack
  exact ⟨h.1, countReset_eq_zero_of_logs _ h.2, h.2⟩

/-- Witness for C1 (amended), at a concrete state with a pending TX-finished
event, unconfirmed mode and an acknowledged result. -/
theorem c1_witness :
    (lora_data_handler { stC1cex with g_rx_fin_result := true }).1.send_fail
      = ({ stC1cex with g_rx_fin_result := true } : AppState).send_fail
    ∧ countReset (lora_data_handler { stC1cex with g_rx_fin_result := true }).2 = 0
    ∧ (lora_data_handler { stC1cex with g_rx_fin_result := true }).2.all isLog
      = true :=
  c1_unconfirmed_ack_log_only { stC1cex with g_rx_fin_result := true }
    (by decide) (by decide) (by decide) (by decide)

/-- C8: for every TX-finished event handled with LoRaWAN enabled, confirmed
mode on and an acknowledged result, the Failure Counter is left exactly as it
was — neither reset to zero nor decremented. -/
theorem c8_confirmed_ack_counter_unchanged (s : AppState)
    (hen : s.g_lorawan_settings.lorawan_enable = true)
    (hcf : s.g_lorawan_settings.confirmed_msg_enabled = .LMH_CONFIRMED_MSG)
    (hack : s.g_rx_fin_result = true)
    (hbit : s.g_task_event_type &&& LORA_TX_FIN = LORA_TX_FIN) :
    (lora_data_handler s).1.send_fail = s.send_fail :=
  (lora_handler_ack_core 0 s hack).1

/-- Witness for C8, at a concrete state with `send_fail = 7`, confirmed mode
and an acknowledged result. -/
theorem c8_witness :
    (lora_data_handler
        { stBase with g_task_event_type := LORA_TX_FIN, send_fail := 7 }).1.send_fail
      = ({ stBase with g_task_event_type := LORA_TX_FIN, send_fail := 7 }
          : AppState).send_fail :=
  c8_confirmed_ack_counter_unchanged
    { stBase with g_task_event_type := LORA_TX_FIN, send_fail := 7 }
    (by decide) (by decide) (by decide) (by decide)

/-- C10: when the short-range link is disabled, invoking the BLE data handler
with the BLE_DATA bit set changes nothing: the state (including the pending
BLE_DATA bit) is returned untouched and no call — in particular no forwarded
byte and no terminator — is made. -/
theorem c10_ble_disabled_noop (s : AppState)
    (hble : s.g_enable_ble = false)
    (hbit : s.g_task_event_type &&& BLE_DATA = BLE_DATA) :
    ble_data_handler s = (s, [])
    ∧ (ble_data_handler s).1.g_task_event_type &&& BLE_DATA = BLE_DATA
    ∧ forwardedBytes (ble_data_handler s).2 = [] := by
  have h : ble_data_handler s = (s, []) := by
    simp [ble_data_handler, ble_data_handlerI, hble]
  refine ⟨h, ?_, ?_⟩
  · rw [h]
    exact hbit
  · rw [h]
    rfl

/-- Witness for C10 at a concrete state with a pending BLE_DATA event, a
nonempty UART buffer and the BLE link disabled. -/
theorem c10_witness :
    ble_data_handler { stC3cex with ble_rx := [65] }
      = ({ stC3cex with ble_rx := [65] }, [])
    ∧ (ble_data_handler { stC3cex with ble_rx := [65] }).1.g_task_event_type
        &&& BLE_DATA = BLE_DATA
    ∧ forwardedBytes (ble_data_handler { stC3cex with ble_rx := [65] }).2 = [] :=
  c10_ble_disabled_noop { stC3cex with ble_rx := [65] } (by decide) (by decide)

/-- Draining the UART forwards each byte, cast to `uint8_t`, in order. -/
theorem forwardedBytes_bleDrain (l : List Nat) (rest : List Call) :
    forwardedBytes (bleDrain l ++ rest)
      = l.map (fun b => b % 256) ++ forwardedBytes rest := by
  induction l with
  | nil => rfl
  | cons b t ih =>
    simp only [bleDrain, List.cons_append, forwardedBytes, List.filterMap_cons]
    simpa [forwardedBytes] using ih

/-- C9: for every BLE-data event handled while the short-range link is
enabled, with `N` bytes available on the link, exactly the `N` bytes are
forwarded one at a time to `at_serial_input` (each cast to `uint8_t`),
followed by exactly one newline terminator byte; the link buffer is drained
empty. -/
theorem c9_ble_forwards_all_bytes (s : AppState)
    (hble : s.g_enable_ble = true)
    (hbit : s.g_task_event_type &&& BLE_DATA = BLE_DATA) :
    forwardedBytes (ble_data_handler s).2
      = s.ble_rx.map (fun b => b % 256) ++ [10]
    ∧ (ble_data_handler s).1.ble_rx = [] := by
  have hcond : (s.g_task_event_type &&& BLE_DATA == BLE_DATA) = true := by
    simp [hbit]
  constructor
  · show forwardedBytes (ble_data_handlerI 0 s).2 = _
    unfold ble_data_handlerI
    rw [if_pos hble, if_pos hcond]
    show forwardedBytes (.log "AT" "RECEIVED BLE" :: (bleDrain s.ble_rx ++ [.atSerialInput 10])) = _
    simp only [forwardedBytes, List.filterMap_cons]
    simpa [forwardedBytes] using forwardedBytes_bleDrain s.ble_rx [.atSerialInput 10]
  · show (ble_data_handlerI 0 s).1.ble_rx = []
    unfold ble_data_handlerI
    rw [if_pos hble, if_pos hcond]
    rfl

/-- Witness for C9 at a concrete state with three bytes pending on the BLE
link (one of them above 255, exercising the `uint8_t` cast). -/
theorem c9_witness :
    forwardedBytes (ble_data_handler
        { stBase with g_task_event_type := BLE_DATA, ble_rx := [65, 84, 300] }).2
      = ([65, 84, 300] : List Nat).map (fun b => b % 256) ++ [10]
    ∧ (ble_data_handler
        { stBase with g_task_event_type := BLE_DATA, ble_rx := [65, 84, 300] }).1.ble_rx
      = [] :=
  c9_ble_forwards_all_bytes
    { stBase with g_task_event_type := BLE_DATA, ble_rx := [65, 84, 300] }
    (by decide) (by decide)

/-- C3 counterexample: with the short-range link disabled and the BLE_DATA
bit set, `ble_data_handler` is invoked but returns without clearing the bit,
so the claim that every handler clears a set bit before returning is false at
this state. -/
theorem c3_counterexample :
    stC3cex.g_task_event_type &&& BLE_DATA = BLE_DATA
    ∧ ¬((ble_data_handler stC3cex).1.g_task_event_type &&& BLE_DATA = 0) := by
  decide

/-- C3 (amended): for every event kind, whenever its bit is set and its
handler processes the event — which for the link-data kind additionally
requires the short-range link to be enabled (`g_enable_ble`; otherwise the
handler returns with the bit still pending, see the counterexample) — the bit
is cleared before the event is processed, so a producer re-setting bits
(mask `p`) during handling leaves those bits set for the next dispatch cycle,
and with no interference (`p = 0`) the bit is cleared when the handler
returns.  The last five conjuncts state that the processing bodies never
touch the flag word: the clear precedes all processing. -/
theorem c3_event_bit_cleared_before_processing :
    (∀ (rb : Nat → ℚ) (res : LmhErrorStatus) (p : Nat) (s : AppState),
        s.g_task_event_type &&& STATUS = STATUS →
        (app_event_handlerI rb res p s).1.g_task_event_type
          = (s.g_task_event_type &&& N_STATUS) ||| p)
    ∧ (∀ (p : Nat) (s : AppState), s.g_enable_ble = true →
        s.g_task_event_type &&& BLE_DATA = BLE_DATA →
        (ble_data_handlerI p s).1.g_task_event_type
          = (s.g_task_event_type &&& N_BLE_DATA) ||| p)
    ∧ (∀ (p : Nat) (s : AppState) (b : Nat),
        b = LORA_JOIN_FIN ∨ b = LORA_DATA ∨ b = LORA_TX_FIN →
        s.g_task_event_type &&& b = b →
        (lora_data_handlerI p s).1.g_task_event_type &&& b = p &&& b)
    ∧ (∀ (rb : Nat → ℚ) (res : LmhErrorStatus) (t : AppState),
        (statusBody rb res t).1.g_task_event_type = t.g_task_event_type)
    ∧ (∀ t : AppState, (bleBody t).1.g_task_event_type = t.g_task_event_type)
    ∧ (∀ t : AppState, (joinBody t).1.g_task_event_type = t.g_task_event_type)
    ∧ (∀ t : AppState, (dataBody t).1.g_task_event_type = t.g_task_event_type)
    ∧ (∀ t : AppState, (txBody t).1.g_task_event_type = t.g_task_event_type) := by
  refine ⟨?_, ?_, ?_, ?_, ?_, ?_, ?_, ?_⟩
  · intro rb res p s hbit
    unfold app_event_handlerI
    rw [if_pos (by simp [hbit]), statusBody_flags]
  · intro p s hble hbit
    unfold ble_data_handlerI
    rw [if_pos hble, if_pos (by simp [hbit])]
    rfl
  · intro p s b hb hbit
    show (loraTxStep p (loraDataStep p (loraJoinStep p s).1).1).1.g_task_event_type
        &&& b = p &&& b
    rcases hb with rfl | rfl | rfl
    · have h1 : (loraJoinStep p s).1.g_task_event_type &&& LORA_JOIN_FIN
          = p &&& LORA_JOIN_FIN := by
        unfold loraJoinStep
        rw [if_pos (by simp [hbit]), joinBody_state]
        exact and_clear_or_and _ _ _ _ (by decide)
      have h2 : (loraDataStep p (loraJoinStep p s).1).1.g_task_event_type
          &&& LORA_JOIN_FIN = p &&& LORA_JOIN_FIN := by
        unfold loraDataStep
        split
        · rw [dataBody_state]
          exact and_keep_or_and _ _ _ _ (by decide) h1
        · exact h1
      unfold loraTxStep
      split
      · rw [txBody_flags]
        exact and_keep_or_and _ _ _ _ (by decide) h2
      · exact h2
    · have h1 : (loraJoinStep p s).1.g_task_event_type &&& LORA_DATA
          = LORA_DATA := by
        unfold loraJoinStep
        split
        · rw [joinBody_state]
          exact and_keep_or_self _ _ _ _ (by decide) hbit
        · exact hbit
      have h2 : (loraDataStep p (loraJoinStep p s).1).1.g_task_event_type
          &&& LORA_DATA = p &&& LORA_DATA := by
        unfold loraDataStep
        rw [if_pos (by simp [h1]), dataBody_state]
        exact and_clear_or_and _ _ _ _ (by decide)
      unfold loraTxStep
      split
      · rw [txBody_flags]
        exact and_keep_or_and _ _ _ _ (by decide) h2
      · exact h2
    · have h1 : (loraJoinStep p s).1.g_task_event_type &&& LORA_TX_FIN
          = LORA_TX_FIN := by
        unfold loraJoinStep
        split
        · rw [joinBody_state]
          exact and_keep_or_self _ _ _ _ (by decide) hbit
        · exact hbit
      have h2 : (loraDataStep p (loraJoinStep p s).1).1.g_task_event_type
          &&& LORA_TX_FIN = LORA_TX_FIN := by
        unfold loraDataStep
        split
        · rw [dataBody_state]
          exact and_keep_or_self _ _ _ _ (by decide) h1
        · exact h1
      unfold loraTxStep
      rw [if_pos (by simp [h2]), txBody_flags]
      exact and_clear_or_and _ _ _ _ (by decide)
  · exact statusBody_flags
  · exact bleBody_flags
  · intro t
    rw [joinBody_state]
  · intro t
    rfl
  · exact txBody_flags

/-- Witness for C3 (amended): concrete instances of the three handler
conjuncts — the status handler under interference `p = 0`, the BLE handler
under interference re-setting BLE_DATA itself, and the LoRa handler under
interference re-setting LORA_TX_FIN while it is being handled (the bit is
still pending afterwards). -/
theorem c3_witness :
    (app_event_handlerI (fun _ => (4200 : ℚ)) .LMH_SUCCESS 0
        { stBase with g_task_event_type := STATUS }).1.g_task_event_type
      = (({ stBase with g_task_event_type := STATUS } : AppState).g_task_event_type
          &&& N_STATUS) ||| 0
    ∧ (ble_data_handlerI BLE_DATA
        { stBase with g_task_event_type := BLE_DATA }).1.g_task_event_type
      = (({ stBase with g_task_event_type := BLE_DATA } : AppState).g_task_event_type
          &&& N_BLE_DATA) ||| BLE_DATA
    ∧ (lora_data_handlerI LORA_TX_FIN
        { stBase with g_task_event_type := LORA_TX_FIN }).1.g_task_event_type
        &&& LORA_TX_FIN = LORA_TX_FIN &&& LORA_TX_FIN :=
  ⟨c3_event_bit_cleared_before_processing.1 (fun _ => (4200 : ℚ)) .LMH_SUCCESS 0
      { stBase with g_task_event_type := STATUS } (by decide),
   c3_event_bit_cleared_before_processing.2.1 BLE_DATA
      { stBase with g_task_event_type := BLE_DATA } (by decide) (by decide),
   c3_event_bit_cleared_before_processing.2.2.1 LORA_TX_FIN
      { stBase with g_task_event_type := LORA_TX_FIN } LORA_TX_FIN
      (Or.inr (Or.inr rfl)) (by decide)⟩

/-- The C accumulation loop `batt_level_f += read_batt()` over 10 iterations
equals the accumulator plus the sum of the samples. -/
theorem foldl_add_range (f : Nat → ℚ) :
    ∀ (n : Nat) (a : ℚ), (List.range n).foldl (fun acc i => acc + f i) a
      = a + ∑ i ∈ Finset.range n, f i := by
  intro n
  induction n with
  | zero =>
    intro a
    simp
  | succ n ih =>
    intro a
    rw [List.range_succ, List.foldl_append, ih, Finset.sum_range_succ]
    simp only [List.foldl_cons, List.foldl_nil]
    ring

/-- After the status body, the payload holds exactly one record: the voltage
record on the battery channel whose value is the arithmetic mean of the 10
raw samples scaled from millivolts to volts. -/
theorem statusBody_payload (rb : Nat → ℚ) (res : LmhErrorStatus) (t : AppState)
    (hcap : t.payload.maxsize = 255) :
    (statusBody rb res t).1.payload.buffer
      = [⟨LPP_CHANNEL_BATT, LPP_VOLTAGE,
          ((∑ i ∈ Finset.range 10, rb i) / 10) / 1000⟩] := by
  have hfold : (List.range 10).foldl (fun acc i => acc + rb i) 0
      = ∑ i ∈ Finset.range 10, rb i := by
    rw [foldl_add_range]
    exact zero_add _
  simp only [statusBody]
  repeat' split
  all_goals
    simp [WisCayenne.addVoltage, WisCayenne.reset, WisCayenne.getSize, hcap,
      hfold, recordBytes]

/-- C4: for every status/timer event handled while wide-area mode is
disabled, exactly one peer-to-peer send call is made — carrying the encoded
payload — and zero wide-area enqueue calls are made. -/
theorem c4_p2p_exactly_one_send (rb : Nat → ℚ) (res : LmhErrorStatus)
    (s : AppState)
    (hbit : s.g_task_event_type &&& STATUS = STATUS)
    (hen : s.g_lorawan_settings.lorawan_enable = false) :
    countP2PSend (app_event_handler rb res s).2 = 1
    ∧ countLoraSend (app_event_handler rb res s).2 = 0
    ∧ sentBuffers (app_event_handler rb res s).2
      = [(app_event_handler rb res s).1.payload.buffer] := by
  unfold app_event_handler app_event_handlerI
  rw [if_pos (by simp [hbit])]
  simp only [statusBody]
  rw [if_neg (by simp [hen])]
  simp [countP2PSend, countLoraSend, sentBuffers, isP2PSend, isLoraSend]

/-- Witness for C4 at a concrete state with a pending status event and
wide-area mode disabled. -/
theorem c4_witness :
    countP2PSend (app_event_handler (fun _ => (4200 : ℚ)) .LMH_SUCCESS stC4w).2 = 1
    ∧ countLoraSend (app_event_handler (fun _ => (4200 : ℚ)) .LMH_SUCCESS stC4w).2 = 0
    ∧ sentBuffers (app_event_handler (fun _ => (4200 : ℚ)) .LMH_SUCCESS stC4w).2
      = [(app_event_handler (fun _ => (4200 : ℚ))
          .LMH_SUCCESS stC4w).1.payload.buffer] :=
  c4_p2p_exactly_one_send (fun _ => (4200 : ℚ)) .LMH_SUCCESS stC4w
    (by decide) (by decide)

/-- C5: for every status/timer event handled while wide-area mode is enabled
but the device has not joined, no transmission call of either kind is made. -/
theorem c5_not_joined_no_sends (rb : Nat → ℚ) (res : LmhErrorStatus)
    (s : AppState)
    (hbit : s.g_task_event_type &&& STATUS = STATUS)
    (hen : s.g_lorawan_settings.lorawan_enable = true)
    (hj : s.g_lpwan_has_joined = false) :
    countLoraSend (app_event_handler rb res s).2 = 0
    ∧ countP2PSend (app_event_handler rb res s).2 = 0 := by
  unfold app_event_handler app_event_handlerI
  rw [if_pos (by simp [hbit])]
  simp only [statusBody]
  rw [if_pos (by simp [hen]), if_neg (by simp [hj])]
  simp [countLoraSend, countP2PSend, isLoraSend, isP2PSend]

/-- Witness for C5 at a concrete state with a pending status event, wide-area
mode enabled and the join not completed. -/
theorem c5_witness :
    countLoraSend (app_event_handler (fun _ => (4200 : ℚ)) .LMH_SUCCESS
        { stBase with g_task_event_type := STATUS, g_lpwan_has_joined := false }).2
      = 0
    ∧ countP2PSend (app_event_handler (fun _ => (4200 : ℚ)) .LMH_SUCCESS
        { stBase with g_task_event_type := STATUS, g_lpwan_has_joined := false }).2
      = 0 :=
  c5_not_joined_no_sends (fun _ => (4200 : ℚ)) .LMH_SUCCESS
    { stBase with g_task_event_type := STATUS, g_lpwan_has_joined := false }
    (by decide) (by decide) (by decide)

/-- C6: for every sampler `rb` giving the 10 raw battery readings of one
status-event handling, the voltage value encoded into the payload is exactly
the arithmetic mean of the 10 samples divided by 1000 (millivolts scaled to
volts; the encoder's own two-byte rounding is abstracted away). -/
theorem c6_encoded_voltage_is_mean (rb : Nat → ℚ) (res : LmhErrorStatus)
    (s : AppState)
    (hbit : s.g_task_event_type &&& STATUS = STATUS)
    (hcap : s.payload.maxsize = 255) :
    (app_event_handler rb res s).1.payload.buffer
      = [⟨LPP_CHANNEL_BATT, LPP_VOLTAGE,
          ((∑ i ∈ Finset.range 10, rb i) / 10) / 1000⟩] := by
  unfold app_event_handler app_event_handlerI
  rw [if_pos (by simp [hbit])]
  exact statusBody_payload rb res _ (by simpa using hcap)

/-- Witness for C6 with the concrete sample sequence 4200, 4201, ..., 4209. -/
theorem c6_witness :
    (app_event_handler (fun i => (4200 : ℚ) + i) .LMH_SUCCESS
        { stBase with g_task_event_type := STATUS }).1.payload.buffer
      = [⟨LPP_CHANNEL_BATT, LPP_VOLTAGE,
          ((∑ i ∈ Finset.range 10, ((4200 : ℚ) + i)) / 10) / 1000⟩] :=
  c6_encoded_voltage_is_mean (fun i => (4200 : ℚ) + i) .LMH_SUCCESS
    { stBase with g_task_event_type := STATUS } (by decide) (by decide)

/-- C7: at the start of every status-event handling the payload buffer is
reset (the result does not depend on its previous contents, which are
arbitrary in `s`), and by the time a transmission is attempted it holds
exactly one record, tagged as the battery-channel voltage reading; every
transmission call of the cycle carries exactly that buffer (no transmission
is attempted in the enabled-but-not-joined case). -/
theorem c7_payload_reset_single_record (rb : Nat → ℚ) (res : LmhErrorStatus)
    (s : AppState)
    (hbit : s.g_task_event_type &&& STATUS = STATUS)
    (hcap : s.payload.maxsize = 255) :
    (app_event_handler rb res s).1.payload.buffer.length = 1
    ∧ ((app_event_handler rb res s).1.payload.buffer.map fun r => (r.channel, r.tag))
        = [(LPP_CHANNEL_BATT, LPP_VOLTAGE)]
    ∧ sentBuffers (app_event_handler rb res s).2
      = (if s.g_lorawan_settings.lorawan_enable && !s.g_lpwan_has_joined then []
         else [(app_event_handler rb res s).1.payload.buffer]) := by
  unfold app_event_handler app_event_handlerI
  rw [if_pos (by simp [hbit])]
  have hp := statusBody_payload rb res
    { s with g_task_event_type := (s.g_task_event_type &&& N_STATUS) ||| 0 }
    (by simpa using hcap)
  refine ⟨by rw [hp]; rfl, by rw [hp]; rfl, ?_⟩
  simp only [statusBody] at hp ⊢
  repeat' split
  all_goals simp_all [sentBuffers]

/-- Witness for C7 at a concrete state with a pending status event, LoRaWAN
enabled and joined, and a previously nonempty payload buffer (exercising the
reset). -/
theorem c7_witness :
    (app_event_handler (fun _ => (4200 : ℚ)) .LMH_SUCCESS
        stC7w).1.payload.buffer.length = 1
    ∧ ((app_event_handler (fun _ => (4200 : ℚ)) .LMH_SUCCESS
        stC7w).1.payload.buffer.map fun r => (r.channel, r.tag))
        = [(LPP_CHANNEL_BATT, LPP_VOLTAGE)]
    ∧ sentBuffers (app_event_handler (fun _ => (4200 : ℚ)) .LMH_SUCCESS stC7w).2
      = (if stC7w.g_lorawan_settings.lorawan_enable && !stC7w.g_lpwan_has_joined
         then []
         else [(app_event_handler (fun _ => (4200 : ℚ))
                  .LMH_SUCCESS stC7w).1.payload.buffer]) :=
  c7_payload_reset_single_record (fun _ => (4200 : ℚ)) .LMH_SUCCESS stC7w
    (by decide) (by decide)

/-- One TX-finished event with a negative acknowledgment, delivered to a
quiescent controller (no other event pending) in confirmed LoRaWAN mode:
the failure counter is incremented (as a `uint8_t`), the flag word is clean
again, and the trace ends in the restart call exactly when the counter
reaches 10. -/
theorem txEvent_nak (s : AppState)
    (hen : s.g_lorawan_settings.lorawan_enable = true)
    (hcf : s.g_lorawan_settings.confirmed_msg_enabled = .LMH_CONFIRMED_MSG)
    (hfl : s.g_task_event_type = 0) :
    txEvent false s =
      ({ s with g_rx_fin_result := false, g_task_event_type := 0,
                send_fail := (s.send_fail + 1) % 256 },
       if (s.send_fail + 1) % 256 == 10 then
         [Call.log "APP" "LPWAN TX cycle failed NAK", Call.delayMs 100, Call.apiReset]
       else
         [Call.log "APP" "LPWAN TX cycle failed NAK"]) := by
  have e1 : ¬(LORA_TX_FIN &&& LORA_JOIN_FIN = LORA_JOIN_FIN) := by decide
  have e2 : ¬(LORA_TX_FIN &&& LORA_DATA = LORA_DATA) := by decide
  have e3 : LORA_TX_FIN &&& LORA_TX_FIN = LORA_TX_FIN := by decide
  have e4 : LORA_TX_FIN &&& N_LORA_TX_FIN = 0 := by decide
  unfold txEvent lora_data_handler lora_data_handlerI
  simp only [loraJoinStep, loraDataStep, loraTxStep, txBody, hfl, hen, hcf]
  simp [e1, e2, e3, e4, hen, hcf]
  split <;> rfl

/-- Running `n` consecutive negatively-acknowledged TX-finished events in
confirmed mode adds `n` to the failure counter, and the `k`-th event's trace
contains the restart call exactly when it brings the counter to 10. -/
theorem runTx_nak_spec (n : Nat) :
    ∀ s : AppState, s.g_lorawan_settings.lorawan_enable = true →
      s.g_lorawan_settings.confirmed_msg_enabled = .LMH_CONFIRMED_MSG →
      s.g_task_event_type = 0 → s.send_fail + n ≤ 10 →
      (runTx (List.replicate n false) s).1.send_fail = s.send_fail + n
      ∧ ∀ k, k < n →
          countReset ((runTx (List.replicate n false) s).2.getD k []) =
            if s.send_fail + k + 1 = 10 then 1 else 0 := by
  induction n with
  | zero =>
    intro s _ _ _ _
    exact ⟨by simp [runTx], fun k hk => absurd hk (Nat.not_lt_zero k)⟩
  | succ n ih =>
    intro s hen hcf hfl hb
    have hmod : (s.send_fail + 1) % 256 = s.send_fail + 1 :=
      Nat.mod_eq_of_lt (by omega)
    have hstep := txEvent_nak s hen hcf hfl
    have ihh := ih
      { s with
        g_rx_fin_result := false
        g_task_event_type := 0
        send_fail := (s.send_fail + 1) % 256 }
      hen hcf rfl (by simp [hmod]; omega)
    rw [List.replicate_succ]
    simp only [runTx, hstep]
    constructor
    · rw [ihh.1]
      simp only [hmod]
      omega
    · intro k hk
      cases k with
      | zero =>
        simp only [List.getD_cons_zero]
        by_cases h10 : s.send_fail + 1 = 10
        · simp [hmod, h10, countReset, isReset]
        · have h9 : ¬(s.send_fail = 9) := by omega
          simp [hmod, h10, h9, countReset, isReset]
      | succ k =>
        simp only [List.getD_cons_succ]
        rw [ihh.2 k (by omega)]
        simp only [hmod]
        have heq : (s.send_fail + 1) + k + 1 = s.send_fail + (k + 1) + 1 := by omega
        rw [heq]

/-- C2: with LoRaWAN and confirmed mode enabled and the Failure Counter at
zero, a sequence of `n ≤ 10` TX-finished events with acknowledged=false
increments the counter by one each time (it ends at `n`), and the trace of
the `k`-th event (0-based) contains the restart call `api_reset` exactly when
`k = 9`, i.e. exactly once, on the event that brings the counter to 10, and
never while the counter is below 10. -/
theorem c2_ten_naks_single_reset (s : AppState)
    (hen : s.g_lorawan_settings.lorawan_enable = true)
    (hcf : s.g_lorawan_settings.confirmed_msg_enabled = .LMH_CONFIRMED_MSG)
    (hfl : s.g_task_event_type = 0) (h0 : s.send_fail = 0)
    (n k : Nat) (hn : n ≤ 10) (hk : k < n) :
    (runTx (List.replicate n false) s).1.send_fail = n
    ∧ countReset ((runTx (List.replicate n false) s).2.getD k [])
      = if k = 9 then 1 else 0 := by
  have h := runTx_nak_spec n s hen hcf hfl (by omega)
  refine ⟨by rw [h.1, h0, Nat.zero_add], ?_⟩
  rw [h.2 k hk, h0]
  by_cases h9 : k = 9
  · simp [h9]
  · have hne : ¬(0 + k + 1 = 10) := by omega
    simp [h9, hne]

/-- Witness for C2: ten consecutive NAK events from the reference state bring
the counter to 10, and the tenth event's trace holds the single restart
call. -/
theorem c2_witness :
    (runTx (List.replicate 10 false) stBase).1.send_fail = 10
    ∧ countReset ((runTx (List.replicate 10 false) stBase).2.getD 9 [])
      = if 9 = 9 then 1 else 0 :=
  c2_ten_naks_single_reset stBase (by decide) (by decide) (by decide) (by decide)
    10 9 (by decide) (by decide)
